import Mathlib

/-!
Verification of the monitoringsiswa server (src/server.ts): a shallow
embedding of the data model, session resolution, authorization gates and
record-access operations of the Express/SQLite application, followed by
theorems settling the specification claims.
-/

/-- A row of the `users` table.  `student_id` is NULL for teachers, hence
`Option Nat`.  Roles are stored as free text in the source (`'teacher'`,
`'student'`) and compared as strings, so we keep `role : String`. -/
structure User where
  id : Nat
  username : String
  password : String
  role : String
  student_id : Option Nat
deriving DecidableEq, Repr

/-- A row of the `students` table.  `parent_name` and `phone` are nullable. -/
structure Student where
  id : Nat
  name : String
  class_ : String
  parent_name : Option String
  phone : Option String
deriving DecidableEq, Repr

/-- A row of the `attendance` table.  `date` is a TEXT column; SQLite compares
TEXT with byte-wise ordering, embedded as the lexicographic order on
`String`. -/
structure AttendanceRow where
  id : Nat
  student_id : Nat
  date : String
  status : String
deriving DecidableEq, Repr

/-- A row of the `grades` table.  The REAL `score` column is never computed
with by any operation (it is stored and echoed back verbatim), so it is
embedded as the opaque literal the client sent. -/
structure GradeRow where
  id : Nat
  student_id : Nat
  subject : String
  score : String
  date : String
deriving DecidableEq, Repr

/-- A row of the `behavior` table. -/
structure BehaviorRow where
  id : Nat
  student_id : Nat
  type : String
  description : Option String
  date : String
deriving DecidableEq, Repr

/-- The persistent store: the five SQLite tables, plus the AUTOINCREMENT
counters for the three tables the application inserts into. -/
structure Store where
  users : List User
  students : List Student
  attendance : List AttendanceRow
  grades : List GradeRow
  behavior : List BehaviorRow
  nextAttendanceId : Nat
  nextGradeId : Nat
  nextBehaviorId : Nat
deriving DecidableEq, Repr

/-- The user fields exposed by `/api/login` and `/api/me`. -/
structure PublicUser where
  id : Nat
  username : String
  role : String
  student_id : Option Nat
deriving DecidableEq, Repr

/-- Projection of a user row to its public fields, as built inline in the
login and me handlers. -/
def User.toPublic (u : User) : PublicUser :=
  { id := u.id, username := u.username, role := u.role, student_id := u.student_id }

/-- An HTTP JSON response: a 200 body, or an error status with its message
body.  The two rejection kinds of the error taxonomy are told apart by the
status number. -/
inductive Resp (α : Type) where
  | ok (body : α)
  | err (status : Nat) (message : String)
deriving DecidableEq, Repr

/-- Session resolver (`getSessionUser`): the `userId` cookie, when present,
is looked up in the `users` table; a missing cookie or an unknown id yields
no user. -/
def getSessionUser (s : Store) (cookie : Option Nat) : Option User :=
  match cookie with
  | none => none
  | some uid => s.users.find? (fun u => u.id == uid)

/-- `POST /api/login`: looks a user up by username and password; on a match
returns the public user and sets the `userId` cookie to the user's id, else
a 401 with `success:false`.  The second component is the cookie set by the
response (`none` = no session established). -/
def apiLogin (s : Store) (username password : String) :
    Resp PublicUser × Option Nat :=
  match s.users.find? (fun u => u.username == username && u.password == password) with
  | some u => (Resp.ok u.toPublic, some u.id)
  | none => (Resp.err 401 "Username atau password salah", none)

/-- `GET /api/me`: returns the session user's public fields, or 401 when the
session resolves to no user. -/
def apiMe (s : Store) (cookie : Option Nat) : Resp PublicUser :=
  match getSessionUser s cookie with
  | some u => Resp.ok u.toPublic
  | none => Resp.err 401 "Not authenticated"

/-- `GET /api/students`: teacher only; note the source rejects a missing
session and a non-teacher session alike with 403. -/
def apiStudents (s : Store) (cookie : Option Nat) : Resp (List Student) :=
  match getSessionUser s cookie with
  | some u => if u.role == "teacher" then Resp.ok s.students
              else Resp.err 403 "Forbidden"
  | none => Resp.err 403 "Forbidden"

/-- Date-descending comparison on rows: `a` precedes `b` when `a`'s date is
the later (or equal) one, under the byte-wise TEXT ordering SQLite uses. -/
def dateDescRel {α : Type} (date : α → String) (a b : α) : Prop :=
  date b ≤ date a

instance {α : Type} (date : α → String) : DecidableRel (dateDescRel date) :=
  fun a b => inferInstanceAs (Decidable (date b ≤ date a))

instance {α : Type} (date : α → String) : IsTotal α (dateDescRel date) :=
  ⟨fun a b => le_total (date b) (date a)⟩

instance {α : Type} (date : α → String) : IsTrans α (dateDescRel date) :=
  ⟨fun _ _ _ hab hbc => le_trans hbc hab⟩

/-- Sort a list by its date field, most recent first, as SQLite's
`ORDER BY date DESC` does on the TEXT column. -/
def sortByDateDesc {α : Type} (date : α → String) (l : List α) : List α :=
  List.insertionSort (dateDescRel date) l

/-- The body of a student-detail response: the spread `{...student}` keeps
the student fields absent when the row does not exist (`none`), and the
three related sequences are always present. -/
structure StudentDetail where
  student : Option Student
  attendance : List AttendanceRow
  grades : List GradeRow
  behavior : List BehaviorRow
deriving DecidableEq, Repr

/-- The data part of `GET /api/students/:id` (lines 133-137): the student row
looked up by id, and the three related sequences filtered by student id and
ordered by date descending. -/
def getStudentDetail (s : Store) (id : Nat) : StudentDetail :=
  { student := s.students.find? (fun st => st.id == id)
    attendance := sortByDateDesc (fun r => r.date)
      (s.attendance.filter (fun r => r.student_id == id))
    grades := sortByDateDesc (fun r => r.date)
      (s.grades.filter (fun r => r.student_id == id))
    behavior := sortByDateDesc (fun r => r.date)
      (s.behavior.filter (fun r => r.student_id == id)) }

/-- `GET /api/students/:id`: 401 when there is no session; 403 when a
student-role caller requests an id other than their own; otherwise the
merged detail (with a 200 status even when the student row is absent). -/
def apiStudentDetail (s : Store) (cookie : Option Nat) (id : Nat) :
    Resp StudentDetail :=
  match getSessionUser s cookie with
  | none => Resp.err 401 "Unauthorized"
  | some u =>
      if u.role == "student" && u.student_id != some id then
        Resp.err 403 "Forbidden"
      else
        Resp.ok (getStudentDetail s id)

/-- `POST /api/attendance`: teacher only (missing session also rejected with
403); inserts one row with the next AUTOINCREMENT id, no existence check on
`student_id`.  Returns the response and the updated store. -/
def apiAddAttendance (s : Store) (cookie : Option Nat)
    (student_id : Nat) (date status : String) : Resp Unit × Store :=
  match getSessionUser s cookie with
  | some u =>
      if u.role == "teacher" then
        (Resp.ok (),
         { s with
            attendance := s.attendance ++
              [{ id := s.nextAttendanceId, student_id := student_id,
                 date := date, status := status }]
            nextAttendanceId := s.nextAttendanceId + 1 })
      else (Resp.err 403 "Forbidden", s)
  | none => (Resp.err 403 "Forbidden", s)

/-- `POST /api/grades`: teacher only; inserts one grade row, no existence
check on `student_id`. -/
def apiAddGrade (s : Store) (cookie : Option Nat)
    (student_id : Nat) (subject score date : String) : Resp Unit × Store :=
  match getSessionUser s cookie with
  | some u =>
      if u.role == "teacher" then
        (Resp.ok (),
         { s with
            grades := s.grades ++
              [{ id := s.nextGradeId, student_id := student_id,
                 subject := subject, score := score, date := date }]
            nextGradeId := s.nextGradeId + 1 })
      else (Resp.err 403 "Forbidden", s)
  | none => (Resp.err 403 "Forbidden", s)

/-- `POST /api/behavior`: teacher only; inserts one behavior row, no
existence check on `student_id`. -/
def apiAddBehavior (s : Store) (cookie : Option Nat)
    (student_id : Nat) (type : String) (description : Option String)
    (date : String) : Resp Unit × Store :=
  match getSessionUser s cookie with
  | some u =>
      if u.role == "teacher" then
        (Resp.ok (),
         { s with
            behavior := s.behavior ++
              [{ id := s.nextBehaviorId, student_id := student_id,
                 type := type, description := description, date := date }]
            nextBehaviorId := s.nextBehaviorId + 1 })
      else (Resp.err 403 "Forbidden", s)
  | none => (Resp.err 403 "Forbidden", s)

/-- The distinct statuses occurring in a list of attendance rows, one entry
per status, as the keys of SQL `GROUP BY status`. -/
def distinctStatuses : List AttendanceRow → List String
  | [] => []
  | r :: rs =>
      let rest := distinctStatuses rs
      if r.status ∈ rest then rest else r.status :: rest

/-- `SELECT status, COUNT(*) FROM ... GROUP BY status`: one `(status, count)`
pair per status actually present in the rows. -/
def groupByStatus (rows : List AttendanceRow) : List (String × Nat) :=
  (distinctStatuses rows).map
    (fun st => (st, (rows.filter (fun r => r.status == st)).length))

/-- The body of `GET /api/stats`. -/
structure Stats where
  totalStudents : Nat
  attendanceToday : List (String × Nat)
deriving DecidableEq, Repr

/-- The data part of `GET /api/stats`: total student count, and today's
attendance rows grouped by status. -/
def computeStats (s : Store) (today : String) : Stats :=
  { totalStudents := s.students.length
    attendanceToday := groupByStatus (s.attendance.filter (fun r => r.date == today)) }

/-- `GET /api/stats`: teacher only (missing session also rejected with 403).
`today` is the current calendar day string. -/
def apiStats (s : Store) (cookie : Option Nat) (today : String) : Resp Stats :=
  match getSessionUser s cookie with
  | some u =>
      if u.role == "teacher" then Resp.ok (computeStats s today)
      else Resp.err 403 "Forbidden"
  | none => Resp.err 403 "Forbidden"

/-- The store as seeded by the source on an empty database: four students,
one teacher and two student users, no attendance, grade or behavior rows. -/
def seedStore : Store :=
  { users :=
      [ { id := 1, username := "guru", password := "guru123",
          role := "teacher", student_id := none },
        { id := 2, username := "ahmad", password := "siswa123",
          role := "student", student_id := some 1 },
        { id := 3, username := "siti", password := "siswa123",
          role := "student", student_id := some 2 } ]
    students :=
      [ { id := 1, name := "Ahmad Fauzi", class_ := "10-A",
          parent_name := some "Budi Santoso", phone := some "08123456789" },
        { id := 2, name := "Siti Aminah", class_ := "10-A",
          parent_name := some "Hasan Basri", phone := some "08123456780" },
        { id := 3, name := "Budi Pratama", class_ := "10-B",
          parent_name := some "Agus Setiawan", phone := some "08123456781" },
        { id := 4, name := "Dewi Lestari", class_ := "11-A",
          parent_name := some "Eko Prasetyo", phone := some "08123456782" } ]
    attendance := []
    grades := []
    behavior := []
    nextAttendanceId := 1
    nextGradeId := 1
    nextBehaviorId := 1 }

/-! ### Helper lemmas about sorting and grouping -/

theorem sortByDateDesc_perm {α : Type} (date : α → String) (l : List α) :
    (sortByDateDesc date l).Perm l :=
  List.perm_insertionSort _ l

theorem sortByDateDesc_sorted {α : Type} (date : α → String) (l : List α) :
    (sortByDateDesc date l).Sorted (dateDescRel date) :=
  List.sorted_insertionSort _ l

theorem mem_sortByDateDesc {α : Type} {date : α → String} {l : List α} {x : α} :
    x ∈ sortByDateDesc date l ↔ x ∈ l :=
  (sortByDateDesc_perm date l).mem_iff

theorem sortFilter_mem {α : Type} (date : α → String) (sid : α → Nat)
    (l : List α) (id : Nat) (r : α) :
    r ∈ sortByDateDesc date (l.filter (fun x => sid x == id)) ↔
      r ∈ l ∧ sid r = id := by
  rw [mem_sortByDateDesc, List.mem_filter]
  simp

theorem sortFilter_nil {α : Type} (date : α → String) (sid : α → Nat)
    (l : List α) (id : Nat) (h : ∀ x ∈ l, sid x ≠ id) :
    sortByDateDesc date (l.filter (fun x => sid x == id)) = [] := by
  have hf : l.filter (fun x => sid x == id) = [] := by
    rw [List.filter_eq_nil_iff]
    intro x hx
    simp [h x hx]
  rw [hf]
  rfl

theorem mem_distinctStatuses {rows : List AttendanceRow} {st : String} :
    st ∈ distinctStatuses rows ↔ ∃ r ∈ rows, r.status = st := by
  induction rows with
  | nil => simp [distinctStatuses]
  | cons r rs ih =>
    simp only [distinctStatuses]
    by_cases h : r.status ∈ distinctStatuses rs
    · rw [if_pos h, ih]
      constructor
      · rintro ⟨r', hr', hst⟩
        exact ⟨r', List.mem_cons_of_mem _ hr', hst⟩
      · rintro ⟨r', hr', hst⟩
        rcases List.mem_cons.mp hr' with rfl | hmem
        · exact ih.mp (hst ▸ h)
        · exact ⟨r', hmem, hst⟩
    · rw [if_neg h]
      rw [List.mem_cons, ih]
      constructor
      · rintro (rfl | ⟨r', hr', hst⟩)
        · exact ⟨r, List.mem_cons_self _ _, rfl⟩
        · exact ⟨r', List.mem_cons_of_mem _ hr', hst⟩
      · rintro ⟨r', hr', hst⟩
        rcases List.mem_cons.mp hr' with rfl | hmem
        · exact Or.inl hst.symm
        · exact Or.inr ⟨r', hmem, hst⟩

theorem nodup_distinctStatuses (rows : List AttendanceRow) :
    (distinctStatuses rows).Nodup := by
  induction rows with
  | nil => simp [distinctStatuses]
  | cons r rs ih =>
    simp only [distinctStatuses]
    by_cases h : r.status ∈ distinctStatuses rs
    · rwa [if_pos h]
    · rw [if_neg h]
      exact List.nodup_cons.mpr ⟨h, ih⟩

/-! ### Claim theorems -/

/-- C1: a request to `GET /api/students/:id` carrying a valid session whose
user has role `student` and whose `student_id` differs from the requested id
is answered with 403 Forbidden; since the response is the error constructor,
no student, attendance, grade or behavior data is returned. -/
theorem studentDetail_forbidden_for_other_student
    (s : Store) (cookie : Option Nat) (u : User) (id : Nat)
    (hu : getSessionUser s cookie = some u)
    (hrole : u.role = "student") (hid : u.student_id ≠ some id) :
    apiStudentDetail s cookie id = Resp.err 403 "Forbidden" := by
  simp [apiStudentDetail, hu, hrole, hid]

/-- Witness for C1: on the seeded store, the student user `ahmad` (user id 2,
bound to student 1) requesting student 2 receives 403 Forbidden. -/
theorem studentDetail_forbidden_for_other_student_witness :
    apiStudentDetail seedStore (some 2) 2 = Resp.err 403 "Forbidden" :=
  studentDetail_forbidden_for_other_student seedStore (some 2)
    { id := 2, username := "ahmad", password := "siswa123",
      role := "student", student_id := some 1 } 2
    (by decide) rfl (by decide)

/-- C2 counterexample: on the seeded store, `GET /api/students` with no
session at all is rejected with status 403, not the 401 the claim requires
for unauthenticated requests. -/
theorem protected_rejections_counterexample :
    apiStudents seedStore none = Resp.err 403 "Forbidden" ∧
    (403 : Nat) ≠ 401 := by
  exact ⟨rfl, by decide⟩

/-- C2 amended: `GET /api/students/:id` distinguishes the two rejection
kinds (missing session 401, insufficient role 403); the other protected
operations (list students, the three inserts, stats) reject a missing
session and an insufficient-role session alike with 403 Forbidden, so the
two kinds are not distinguishable there. -/
theorem protected_rejections (s : Store) (c : Option Nat)
    (id sid : Nat) (d st subj sc ty today : String) (desc : Option String) :
    (getSessionUser s c = none →
      apiStudents s c = Resp.err 403 "Forbidden" ∧
      apiStudentDetail s c id = Resp.err 401 "Unauthorized" ∧
      (apiAddAttendance s c sid d st).1 = Resp.err 403 "Forbidden" ∧
      (apiAddGrade s c sid subj sc d).1 = Resp.err 403 "Forbidden" ∧
      (apiAddBehavior s c sid ty desc d).1 = Resp.err 403 "Forbidden" ∧
      apiStats s c today = Resp.err 403 "Forbidden") ∧
    (∀ u : User, getSessionUser s c = some u → u.role ≠ "teacher" →
      apiStudents s c = Resp.err 403 "Forbidden" ∧
      (apiAddAttendance s c sid d st).1 = Resp.err 403 "Forbidden" ∧
      (apiAddGrade s c sid subj sc d).1 = Resp.err 403 "Forbidden" ∧
      (apiAddBehavior s c sid ty desc d).1 = Resp.err 403 "Forbidden" ∧
      apiStats s c today = Resp.err 403 "Forbidden") ∧
    (∀ u : User, getSessionUser s c = some u → u.role = "student" →
      u.student_id ≠ some id →
      apiStudentDetail s c id = Resp.err 403 "Forbidden") := by
  refine ⟨fun h => ?_, fun u hu hrole => ?_, fun u hu hrole hid => ?_⟩
  · simp [apiStudents, apiStudentDetail, apiAddAttendance, apiAddGrade,
      apiAddBehavior, apiStats, h]
  · simp [apiStudents, apiAddAttendance, apiAddGrade, apiAddBehavior,
      apiStats, hu, hrole]
  · simp [apiStudentDetail, hu, hrole, hid]

/-- Witness for C2's amended statement: on the seeded store, a sessionless
request to the student list gets 403 while student detail gets 401, and the
student user `ahmad` gets 403 on the list and on another student's detail. -/
theorem protected_rejections_witness :
    apiStudents seedStore none = Resp.err 403 "Forbidden" ∧
    apiStudentDetail seedStore none 1 = Resp.err 401 "Unauthorized" ∧
    apiStudents seedStore (some 2) = Resp.err 403 "Forbidden" ∧
    apiStudentDetail seedStore (some 2) 2 = Resp.err 403 "Forbidden" := by
  have h := protected_rejections seedStore none 1 1 "2024-01-01" "present"
    "Math" "90" "positive" "2024-01-01" none
  have h2 := protected_rejections seedStore (some 2) 2 1 "2024-01-01" "present"
    "Math" "90" "positive" "2024-01-01" none
  have hahmad : getSessionUser seedStore (some 2) = some
      { id := 2, username := "ahmad", password := "siswa123",
        role := "student", student_id := some 1 } := by decide
  exact ⟨(h.1 rfl).1, (h.1 rfl).2.1,
    (h2.2.1 _ hahmad (by decide)).1,
    h2.2.2 _ hahmad rfl (by decide)⟩

/-- C3 counterexample: on the seeded store (student ids 1..4), a teacher
request for the unknown id 99 is answered with a 200 success payload — the
spread of the missing row leaves the student fields absent and the three
sequences empty — not with a 404 NotFound. -/
theorem studentDetail_unknown_id_counterexample :
    (∀ st ∈ seedStore.students, st.id ≠ 99) ∧
    apiStudentDetail seedStore (some 1) 99 =
      Resp.ok { student := none, attendance := [], grades := [], behavior := [] } := by
  decide

/-- C3 amended: for every authorized request to `GET /api/students/:id`
where no student row with that id exists, the operation returns a 200
success payload whose student part is absent (`none`) and whose related
sequences are the (empty-by-default) filtered sequences — not a 404. -/
theorem studentDetail_unknown_id (s : Store) (c : Option Nat) (u : User)
    (id : Nat) (hu : getSessionUser s c = some u)
    (hgate : ¬(u.role = "student" ∧ u.student_id ≠ some id))
    (hnost : ∀ st ∈ s.students, st.id ≠ id) :
    apiStudentDetail s c id = Resp.ok (getStudentDetail s id) ∧
    (getStudentDetail s id).student = none := by
  constructor
  · rcases not_and_or.mp hgate with hr | hsid
    · simp [apiStudentDetail, hu, hr]
    · have hs : u.student_id = some id := not_not.mp hsid
      simp [apiStudentDetail, hu, hs]
  · simp only [getStudentDetail, List.find?_eq_none]
    intro st hst
    simpa using hnost st hst

/-- Witness for C3's amended statement: teacher `guru` (user id 1) fetching
the unknown student id 99 on the seeded store. -/
theorem studentDetail_unknown_id_witness :
    apiStudentDetail seedStore (some 1) 99 =
      Resp.ok (getStudentDetail seedStore 99) ∧
    (getStudentDetail seedStore 99).student = none :=
  studentDetail_unknown_id seedStore (some 1)
    { id := 1, username := "guru", password := "guru123",
      role := "teacher", student_id := none }
    99 (by decide) (by decide) (by decide)

/-- C4: the claim's required existence check is absent from the source.  On
the seeded store (student ids 1..4) a teacher inserting for the nonexistent
student 99 succeeds in all three operations and each inserts its row, where
the claim requires a NotFound failure and no inserted row. -/
theorem addRecord_missing_existence_check :
    (∀ st ∈ seedStore.students, st.id ≠ 99) ∧
    (apiAddAttendance seedStore (some 1) 99 "2024-01-01" "present").1 = Resp.ok () ∧
    ((apiAddAttendance seedStore (some 1) 99 "2024-01-01" "present").2).attendance =
      [{ id := 1, student_id := 99, date := "2024-01-01", status := "present" }] ∧
    (apiAddGrade seedStore (some 1) 99 "Matematika" "90" "2024-01-01").1 = Resp.ok () ∧
    ((apiAddGrade seedStore (some 1) 99 "Matematika" "90" "2024-01-01").2).grades =
      [{ id := 1, student_id := 99, subject := "Matematika", score := "90",
         date := "2024-01-01" }] ∧
    (apiAddBehavior seedStore (some 1) 99 "positive" (some "rajin") "2024-01-01").1 =
      Resp.ok () ∧
    ((apiAddBehavior seedStore (some 1) 99 "positive" (some "rajin") "2024-01-01").2).behavior =
      [{ id := 1, student_id := 99, type := "positive", description := some "rajin",
         date := "2024-01-01" }] := by
  decide

/-- C5: for every user row, logging in with its username and password
succeeds, returns that user's public fields and sets the session cookie to
its id, and `GET /api/me` with that cookie returns the same user (same id,
username, role and student_id).  The `UNIQUE` username column and the
primary-key id column of the `users` table are the nodup hypotheses. -/
theorem login_me_roundtrip (s : Store) (w : User)
    (hw : w ∈ s.users)
    (hids : (s.users.map User.id).Nodup)
    (hnames : (s.users.map User.username).Nodup) :
    apiLogin s w.username w.password = (Resp.ok w.toPublic, some w.id) ∧
    apiMe s (some w.id) = Resp.ok w.toPublic := by
  have hfind : s.users.find?
      (fun u => u.username == w.username && u.password == w.password) = some w := by
    rcases hsome : s.users.find?
        (fun u => u.username == w.username && u.password == w.password) with _ | u'
    · rw [List.find?_eq_none] at hsome
      exact absurd (by simp) (hsome w hw)
    · have hmem := List.mem_of_find?_eq_some hsome
      have hp := List.find?_some hsome
      simp only [Bool.and_eq_true, beq_iff_eq] at hp
      exact hsome.trans (congrArg some (List.inj_on_of_nodup_map hnames hmem hw hp.1))
  have hfind2 : s.users.find? (fun u => u.id == w.id) = some w := by
    rcases hsome : s.users.find? (fun u => u.id == w.id) with _ | u'
    · rw [List.find?_eq_none] at hsome
      exact absurd (by simp) (hsome w hw)
    · have hmem := List.mem_of_find?_eq_some hsome
      have hp := List.find?_some hsome
      simp only [beq_iff_eq] at hp
      exact hsome.trans (congrArg some (List.inj_on_of_nodup_map hids hmem hw hp))
  exact ⟨by simp [apiLogin, hfind], by simp [apiMe, getSessionUser, hfind2]⟩

/-- Witness for C5: logging in as `guru`/`guru123` on the seeded store and
then calling `/api/me` with the cookie it set. -/
theorem login_me_roundtrip_witness :
    apiLogin seedStore "guru" "guru123" =
      (Resp.ok { id := 1, username := "guru", role := "teacher",
                 student_id := none }, some 1) ∧
    apiMe seedStore (some 1) =
      Resp.ok { id := 1, username := "guru", role := "teacher",
                student_id := none } :=
  login_me_roundtrip seedStore
    { id := 1, username := "guru", password := "guru123",
      role := "teacher", student_id := none }
    (by decide) (by decide) (by decide)

/-- C6: a (username, password) pair matching no user row makes `/api/login`
answer 401 with `success:false` and set no cookie, and `/api/me` with no
cookie answers 401 Unauthenticated. -/
theorem login_invalid_no_session (s : Store) (username password : String)
    (h : ∀ w ∈ s.users, ¬(w.username = username ∧ w.password = password)) :
    apiLogin s username password =
      (Resp.err 401 "Username atau password salah", none) ∧
    apiMe s none = Resp.err 401 "Not authenticated" := by
  have hfind : s.users.find?
      (fun u => u.username == username && u.password == password) = none := by
    rw [List.find?_eq_none]
    intro w hw
    simp only [Bool.and_eq_true, beq_iff_eq, not_and]
    exact fun h1 h2 => h w hw ⟨h1, h2⟩
  exact ⟨by simp [apiLogin, hfind], rfl⟩

/-- Witness for C6: the pair `guru`/`wrong` matches no seeded user. -/
theorem login_invalid_no_session_witness :
    apiLogin seedStore "guru" "wrong" =
      (Resp.err 401 "Username atau password salah", none) ∧
    apiMe seedStore none = Resp.err 401 "Not authenticated" :=
  login_invalid_no_session seedStore "guru" "wrong" (by decide)

/-- C7: for an existing student id, `getStudentDetail` returns the student
row (a row with the requested id, present in the table) merged with the
attendance, grade and behavior sequences, each sorted by date descending,
each containing exactly the rows of that student, and each equal to the
empty list — present, not absent — when the student has no rows of that
kind. -/
theorem getStudentDetail_found_spec (s : Store) (id : Nat) (stu : Student)
    (hstu : stu ∈ s.students) (hid : stu.id = id) :
    (∃ st', (getStudentDetail s id).student = some st' ∧ st'.id = id ∧
      st' ∈ s.students) ∧
    List.Sorted (dateDescRel (fun r => r.date)) (getStudentDetail s id).attendance ∧
    List.Sorted (dateDescRel (fun r => r.date)) (getStudentDetail s id).grades ∧
    List.Sorted (dateDescRel (fun r => r.date)) (getStudentDetail s id).behavior ∧
    (∀ r : AttendanceRow, r ∈ (getStudentDetail s id).attendance ↔
      r ∈ s.attendance ∧ r.student_id = id) ∧
    (∀ r : GradeRow, r ∈ (getStudentDetail s id).grades ↔
      r ∈ s.grades ∧ r.student_id = id) ∧
    (∀ r : BehaviorRow, r ∈ (getStudentDetail s id).behavior ↔
      r ∈ s.behavior ∧ r.student_id = id) ∧
    ((∀ r ∈ s.attendance, r.student_id ≠ id) →
      (getStudentDetail s id).attendance = []) ∧
    ((∀ r ∈ s.grades, r.student_id ≠ id) →
      (getStudentDetail s id).grades = []) ∧
    ((∀ r ∈ s.behavior, r.student_id ≠ id) →
      (getStudentDetail s id).behavior = []) := by
  refine ⟨?_, ?_, ?_, ?_, ?_, ?_, ?_, ?_, ?_, ?_⟩
  · rcases hsome : s.students.find? (fun x => x.id == id) with _ | st'
    · rw [List.find?_eq_none] at hsome
      exact absurd (by simp [hid]) (hsome stu hstu)
    · exact ⟨st', by simp [getStudentDetail, hsome],
        by simpa using List.find?_some hsome,
        List.mem_of_find?_eq_some hsome⟩
  · exact sortByDateDesc_sorted _ _
  · exact sortByDateDesc_sorted _ _
  · exact sortByDateDesc_sorted _ _
  · exact fun r => sortFilter_mem (fun a : AttendanceRow => a.date)
      (fun a : AttendanceRow => a.student_id) s.attendance id r
  · exact fun r => sortFilter_mem (fun a : GradeRow => a.date)
      (fun a : GradeRow => a.student_id) s.grades id r
  · exact fun r => sortFilter_mem (fun a : BehaviorRow => a.date)
      (fun a : BehaviorRow => a.student_id) s.behavior id r
  · exact fun h => sortFilter_nil (fun a : AttendanceRow => a.date)
      (fun a : AttendanceRow => a.student_id) s.attendance id h
  · exact fun h => sortFilter_nil (fun a : GradeRow => a.date)
      (fun a : GradeRow => a.student_id) s.grades id h
  · exact fun h => sortFilter_nil (fun a : BehaviorRow => a.date)
      (fun a : BehaviorRow => a.student_id) s.behavior id h

/-- Witness for C7: on the seeded store, student 1 exists and has no related
rows, so the detail's sequences are empty (but present) and sorted. -/
theorem getStudentDetail_found_spec_witness :
    (getStudentDetail seedStore 1).attendance = [] ∧
    (getStudentDetail seedStore 1).grades = [] ∧
    (getStudentDetail seedStore 1).behavior = [] ∧
    List.Sorted (dateDescRel (fun r => r.date)) (getStudentDetail seedStore 1).attendance := by
  have h := getStudentDetail_found_spec seedStore 1
    { id := 1, name := "Ahmad Fauzi", class_ := "10-A",
      parent_name := some "Budi Santoso", phone := some "08123456789" }
    (by decide) rfl
  exact ⟨h.2.2.2.2.2.2.2.1 (by decide), h.2.2.2.2.2.2.2.2.1 (by decide),
    h.2.2.2.2.2.2.2.2.2 (by decide), h.2.1⟩

/-- C8: `computeStats` returns the exact number of student rows, and the
attendance pairs cover the current day's rows only: every listed pair's
count is the exact number of attendance rows with today's date and that
status (and is positive), a status appears in the sequence exactly when
such a row exists (absent means zero), and no status appears twice. -/
theorem computeStats_spec (s : Store) (today : String) :
    (computeStats s today).totalStudents = s.students.length ∧
    (∀ p ∈ (computeStats s today).attendanceToday,
      p.2 = (s.attendance.filter
        (fun r => r.status == p.1 && r.date == today)).length ∧ 0 < p.2) ∧
    (∀ st : String,
      (∃ c, (st, c) ∈ (computeStats s today).attendanceToday) ↔
        ∃ r ∈ s.attendance, r.date = today ∧ r.status = st) ∧
    ((computeStats s today).attendanceToday.map Prod.fst).Nodup := by
  refine ⟨rfl, ?_, ?_, ?_⟩
  · intro p hp
    simp only [computeStats, groupByStatus, List.mem_map] at hp
    rcases hp with ⟨st, hst, rfl⟩
    constructor
    · rw [List.filter_filter]
    · rcases mem_distinctStatuses.mp hst with ⟨r, hr, hrst⟩
      have : r ∈ (s.attendance.filter (fun r => r.date == today)).filter
          (fun x => x.status == st) := by
        rw [List.mem_filter]
        exact ⟨hr, by simp [hrst]⟩
      exact List.length_pos.mpr (List.ne_nil_of_mem this)
  · intro st
    constructor
    · rintro ⟨c, hc⟩
      simp only [computeStats, groupByStatus, List.mem_map] at hc
      rcases hc with ⟨st', hst', heq⟩
      have hstq : st' = st := congrArg Prod.fst heq
      rcases mem_distinctStatuses.mp (hstq ▸ hst') with ⟨r, hr, hrst⟩
      rw [List.mem_filter] at hr
      exact ⟨r, hr.1, by simpa using hr.2, hrst⟩
    · rintro ⟨r, hr, hrd, hrst⟩
      refine ⟨(( s.attendance.filter (fun r => r.date == today)).filter
        (fun x => x.status == st)).length, ?_⟩
      simp only [computeStats, groupByStatus, List.mem_map]
      refine ⟨st, mem_distinctStatuses.mpr ⟨r, ?_, hrst⟩, rfl⟩
      rw [List.mem_filter]
      exact ⟨hr, by simp [hrd]⟩
  · simp only [computeStats, groupByStatus, List.map_map]
    have : (Prod.fst ∘ fun st => (st,
        ((s.attendance.filter (fun r => r.date == today)).filter
          (fun r => r.status == st)).length)) = id := rfl
    rw [this, List.map_id]
    exact nodup_distinctStatuses _

/-- C9: after a teacher-authorized `addAttendance` for an existing student,
fetching that student's detail yields an attendance sequence containing the
newly inserted row (the one carrying the fresh AUTOINCREMENT id) and still
sorted by date descending. -/
theorem addAttendance_then_detail (s : Store) (c : Option Nat) (u : User)
    (hu : getSessionUser s c = some u) (hrole : u.role = "teacher")
    (sid : Nat) (stu : Student) (_hstu : stu ∈ s.students) (_hsid : stu.id = sid)
    (d status : String) :
    ({ id := s.nextAttendanceId, student_id := sid, date := d,
       status := status } : AttendanceRow) ∈
      (getStudentDetail (apiAddAttendance s c sid d status).2 sid).attendance ∧
    List.Sorted (dateDescRel (fun r => r.date))
      (getStudentDetail (apiAddAttendance s c sid d status).2 sid).attendance := by
  have hstore : (apiAddAttendance s c sid d status).2 =
      { s with
          attendance := s.attendance ++
            [{ id := s.nextAttendanceId, student_id := sid,
               date := d, status := status }]
          nextAttendanceId := s.nextAttendanceId + 1 } := by
    simp [apiAddAttendance, hu, hrole]
  rw [hstore]
  constructor
  · exact (sortFilter_mem (fun a : AttendanceRow => a.date)
      (fun a : AttendanceRow => a.student_id)
      (s.attendance ++
        [{ id := s.nextAttendanceId, student_id := sid,
           date := d, status := status }]) sid
      { id := s.nextAttendanceId, student_id := sid,
        date := d, status := status }).mpr
      ⟨List.mem_append_right _ (List.mem_singleton_self _), rfl⟩
  · exact sortByDateDesc_sorted _ _

/-- Witness for C9: teacher `guru` records attendance for student 1 on the
seeded store; the re-fetched detail contains the new row and is sorted. -/
theorem addAttendance_then_detail_witness :
    ({ id := 1, student_id := 1, date := "2024-05-01",
       status := "present" } : AttendanceRow) ∈
      (getStudentDetail
        (apiAddAttendance seedStore (some 1) 1 "2024-05-01" "present").2 1).attendance ∧
    List.Sorted (dateDescRel (fun r => r.date))
      (getStudentDetail
        (apiAddAttendance seedStore (some 1) 1 "2024-05-01" "present").2 1).attendance :=
  addAttendance_then_detail seedStore (some 1)
    { id := 1, username := "guru", password := "guru123",
      role := "teacher", student_id := none }
    (by decide) rfl 1
    { id := 1, name := "Ahmad Fauzi", class_ := "10-A",
      parent_name := some "Budi Santoso", phone := some "08123456789" }
    (by decide) rfl "2024-05-01" "present"

/-- C10: each teacher-authorized insert touches only its own table: the
attendance insert leaves students, grades, behavior and users unchanged and
likewise for the grade and behavior inserts. -/
theorem inserts_touch_only_own_table (s : Store) (c : Option Nat) (u : User)
    (hu : getSessionUser s c = some u) (hrole : u.role = "teacher")
    (sid : Nat) (d st subj sc ty : String) (desc : Option String) :
    (((apiAddAttendance s c sid d st).2).students = s.students ∧
     ((apiAddAttendance s c sid d st).2).grades = s.grades ∧
     ((apiAddAttendance s c sid d st).2).behavior = s.behavior ∧
     ((apiAddAttendance s c sid d st).2).users = s.users) ∧
    (((apiAddGrade s c sid subj sc d).2).students = s.students ∧
     ((apiAddGrade s c sid subj sc d).2).attendance = s.attendance ∧
     ((apiAddGrade s c sid subj sc d).2).behavior = s.behavior ∧
     ((apiAddGrade s c sid subj sc d).2).users = s.users) ∧
    (((apiAddBehavior s c sid ty desc d).2).students = s.students ∧
     ((apiAddBehavior s c sid ty desc d).2).attendance = s.attendance ∧
     ((apiAddBehavior s c sid ty desc d).2).grades = s.grades ∧
     ((apiAddBehavior s c sid ty desc d).2).users = s.users) := by
  simp [apiAddAttendance, apiAddGrade, apiAddBehavior, hu, hrole]

/-- Witness for C10: the three inserts by teacher `guru` on the seeded
store leave the other tables untouched. -/
theorem inserts_touch_only_own_table_witness :
    (((apiAddAttendance seedStore (some 1) 1 "2024-05-01" "present").2).students =
      seedStore.students ∧
     ((apiAddAttendance seedStore (some 1) 1 "2024-05-01" "present").2).grades =
      seedStore.grades ∧
     ((apiAddAttendance seedStore (some 1) 1 "2024-05-01" "present").2).behavior =
      seedStore.behavior ∧
     ((apiAddAttendance seedStore (some 1) 1 "2024-05-01" "present").2).users =
      seedStore.users) ∧
    (((apiAddGrade seedStore (some 1) 1 "Matematika" "90" "2024-05-01").2).students =
      seedStore.students ∧
     ((apiAddGrade seedStore (some 1) 1 "Matematika" "90" "2024-05-01").2).attendance =
      seedStore.attendance ∧
     ((apiAddGrade seedStore (some 1) 1 "Matematika" "90" "2024-05-01").2).behavior =
      seedStore.behavior ∧
     ((apiAddGrade seedStore (some 1) 1 "Matematika" "90" "2024-05-01").2).users =
      seedStore.users) ∧
    (((apiAddBehavior seedStore (some 1) 1 "positive" (some "rajin") "2024-05-01").2).students =
      seedStore.students ∧
     ((apiAddBehavior seedStore (some 1) 1 "positive" (some "rajin") "2024-05-01").2).attendance =
      seedStore.attendance ∧
     ((apiAddBehavior seedStore (some 1) 1 "positive" (some "rajin") "2024-05-01").2).grades =
      seedStore.grades ∧
     ((apiAddBehavior seedStore (some 1) 1 "positive" (some "rajin") "2024-05-01").2).users =
      seedStore.users) :=
  inserts_touch_only_own_table seedStore (some 1)
    { id := 1, username := "guru", password := "guru123",
      role := "teacher", student_id := none }
    (by decide) rfl 1 "2024-05-01" "present" "Matematika" "90" "positive"
    (some "rajin")
